import Mathlib

/-!
Shallow embedding of `pan3d/explorers/contour.py` (the `ContourExplorer`
trame application) and proofs about its pipeline wiring, state-change
callbacks and UI initialization.

Conventions of the embedding:
* Python floats are modelled as rationals (`ℚ`); the properties proved only
  compare values and take minima/maxima, no floating-point arithmetic is
  involved.
* Reactive state values can be numbers or raw strings (text fields), so they
  are a tagged sum `Val`.
* Stateful VTK/trame calls are modelled as explicit state passing on an
  `AppState` record plus a trace of side effects (`Effect`).
* Fallible code paths (Python `KeyError`, `IndexError`, `UnboundLocalError`,
  `sys.exit`) are modelled with `Option`/`Except`.
-/

namespace Pan3D

/-- A reactive-state value: UI text fields can hold either numbers or raw
strings, so state values are tagged.  Rationals stand in for Python floats. -/
inductive Val where
  | num (q : ℚ)
  | str (s : String)
deriving DecidableEq, Repr

/-- Result of the float conversion applied to scale values before they are
handed to the actors. -/
structure FloatVal where
  val : Val
deriving DecidableEq, Repr

/-- Modelled from the spec: `pan3d.utils.convert.to_float` is imported by the
explorer but its body is not among the sources.  The explorer only uses it as
"the float conversion" of a reactive-state value, so it is kept symbolic as a
tagging wrapper: the claims proved here only require knowing that the actors
receive the converted scale values, not the numeric semantics of the
conversion itself. -/
def to_float (v : Val) : FloatVal := ⟨v⟩

/-! ### VTK pipeline wiring (`_setup_vtk`, contour.py lines 98-182) -/

/-- The visualization-toolkit classes instantiated by `_setup_vtk`. -/
inductive VtkClass where
  | vtkXArrayRectilinearSource
  | vtkDataSetSurfaceFilter
  | vtkTriangleFilter
  | vtkCellDataToPointData
  | vtkLoopSubdivisionFilter
  | vtkAssignAttribute
  | vtkBandedPolyDataContourFilter
  | vtkPolyDataMapper
  | vtkActor
deriving DecidableEq, Repr

/-- Identifiers of the pipeline objects created in `_setup_vtk`
(`self.source`, `self.geometry`, `self.triangle`, ...). -/
inductive ObjId where
  | source
  | geometry
  | triangle
  | cell2point
  | refine
  | assign
  | bands
  | mapper
  | actor
  | mapper_lines
  | actor_lines
deriving DecidableEq, Repr

/-- An upstream connection: the producing object and the index of its output
port (`input_connection=x.output_port` is port 0, `x.GetOutputPort(1)` is
port 1). -/
structure Conn where
  obj : ObjId
  port : Nat
deriving DecidableEq, Repr

/-- The attribute type passed to `assign.Assign`
(`vtkDataSetAttributes.SCALARS`). -/
inductive AttrType where
  | SCALARS
deriving DecidableEq, Repr

/-- The field association passed to `assign.Assign`
(`vtkDataObject.FIELD_ASSOCIATION_POINTS`). -/
inductive FieldAssoc where
  | FIELD_ASSOCIATION_POINTS
deriving DecidableEq, Repr

/-- The pipeline wiring and filter parameters produced by `_setup_vtk`
(contour.py lines 117-167): one record field per configured property of each
created object. -/
structure VtkPipeline where
  source_arrays : Option (List String)
  geometry_cls : VtkClass
  geometry_input : Conn
  triangle_cls : VtkClass
  triangle_input : Conn
  cell2point_cls : VtkClass
  cell2point_input : Conn
  refine_cls : VtkClass
  refine_input : Conn
  refine_number_of_subdivisions : Nat
  assign_cls : VtkClass
  assign_input : Conn
  assign_field : Option String
  assign_attr_type : AttrType
  assign_assoc : FieldAssoc
  bands_cls : VtkClass
  bands_input : Conn
  bands_generate_contour_edges : Bool
  mapper_cls : VtkClass
  mapper_input : Conn
  mapper_scalar_visibility : Bool
  mapper_interpolate_scalars : Bool
  mapper_color_array : Option String
  mapper_uses_point_field_data : Bool
  actor_cls : VtkClass
  actor_mapper : ObjId
  mapper_lines_cls : VtkClass
  mapper_lines_input : Conn
  actor_lines_cls : VtkClass
  actor_lines_mapper : ObjId
  actor_lines_color : List ℚ
  actor_lines_line_width : ℚ
deriving DecidableEq, Repr

/-- The pipeline construction of `_setup_vtk` once an input is selected and
the local variable `field` is bound (contour.py lines 117-167):
source → vtkDataSetSurfaceFilter → vtkTriangleFilter →
vtkCellDataToPointData → vtkLoopSubdivisionFilter → vtkAssignAttribute →
vtkBandedPolyDataContourFilter → vtkPolyDataMapper → vtkActor, with a second
mapper/actor pair on the contour-edge output port 1 of the banded filter. -/
def build_pipeline (field : Option String) : VtkPipeline where
  source_arrays := field.map (fun f => [f])
  geometry_cls := .vtkDataSetSurfaceFilter
  geometry_input := ⟨.source, 0⟩
  triangle_cls := .vtkTriangleFilter
  triangle_input := ⟨.geometry, 0⟩
  cell2point_cls := .vtkCellDataToPointData
  cell2point_input := ⟨.triangle, 0⟩
  refine_cls := .vtkLoopSubdivisionFilter
  refine_input := ⟨.cell2point, 0⟩
  refine_number_of_subdivisions := 1
  assign_cls := .vtkAssignAttribute
  assign_input := ⟨.refine, 0⟩
  assign_field := field
  assign_attr_type := .SCALARS
  assign_assoc := .FIELD_ASSOCIATION_POINTS
  bands_cls := .vtkBandedPolyDataContourFilter
  bands_input := ⟨.assign, 0⟩
  bands_generate_contour_edges := true
  mapper_cls := .vtkPolyDataMapper
  mapper_input := ⟨.bands, 0⟩
  mapper_scalar_visibility := true
  mapper_interpolate_scalars := true
  mapper_color_array := field
  mapper_uses_point_field_data := true
  actor_cls := .vtkActor
  actor_mapper := .mapper
  mapper_lines_cls := .vtkPolyDataMapper
  mapper_lines_input := ⟨.bands, 1⟩
  actor_lines_cls := .vtkActor
  actor_lines_mapper := .mapper_lines
  actor_lines_color := [0, 0, 0]
  actor_lines_line_width := 2

/-- Ways `_setup_vtk` terminates without wiring the pipeline. -/
inductive SetupErr where
  /-- The `xarray`/`source` branches of `_setup_vtk` never bind the local
  variable `field`, so line 117 (`[field] if field is not None else None`)
  raises `UnboundLocalError` on those paths. -/
  | unboundLocalField
  /-- No input at all: `sys.exit(1)` (contour.py line 115). -/
  | exitNoInput
deriving DecidableEq, Repr

/-- Input selection of `_setup_vtk` (contour.py lines 98-117).
`import_color_by = some c` models a readable import-state file whose parsed
config yields `c` for `config["preview"]["color_by"]` (`none` inside models
the `KeyError` fallback to `None`).  The `xarray` and `source` branches do
not bind the local `field` that line 117 reads, hence the error results. -/
def setup_vtk (xarray_given source_given : Bool)
    (import_color_by : Option (Option String)) : Except SetupErr VtkPipeline :=
  if xarray_given then
    .error .unboundLocalField
  else if source_given then
    .error .unboundLocalField
  else
    match import_color_by with
    | some field => .ok (build_pipeline field)
    | none => .error .exitNoInput

/-! ### Local rendering resolution (`__init__`, contour.py lines 71-76) -/

/-- Local-rendering mode selection from the constructor argument and the two
command-line flags (contour.py lines 71-76): start from the constructor
argument, overwrite with `"wasm"` when `--wasm` is given, then overwrite with
`"vtkjs"` when `--vtkjs` is given. -/
def resolve_local_rendering (local_rendering : Option String)
    (wasm vtkjs : Bool) : Option String :=
  let lr0 := local_rendering
  let lr1 := if wasm then some "wasm" else lr0
  if vtkjs then some "vtkjs" else lr1

/-! ### The data source adapter -/

/-- One array of the source's input dataset: the length of its leading
(time) dimension and its flattened values. -/
structure FieldData where
  shape0 : Nat
  values : List ℚ
deriving DecidableEq, Repr

/-- Modelled from the spec: the data source adapter
(`vtkXArrayRectilinearSource`, imported from `pan3d.xarray.algorithm`, not
among the sources) "wraps a labelled N-D array as a grid-structured dataset,
exposing selectable fields/arrays and a time index".  Its input dataset is a
finite map from array names to arrays. -/
structure SourceInput where
  fields : List (String × FieldData)
deriving DecidableEq, Repr

/-- Dictionary access `source.input[name]` (a Python `KeyError` becomes
`none`). -/
def findField (src : SourceInput) (f : String) : Option FieldData :=
  (src.fields.find? (fun p => p.1 == f)).map Prod.snd

/-- Modelled from the spec: `source.available_arrays` exposes the selectable
fields/arrays of the wrapped dataset. -/
def available_arrays (src : SourceInput) : List String :=
  src.fields.map Prod.fst

/-! ### Application state and side effects -/

/-- Side effects emitted by the state-change callbacks, in program order:
`self.mapper.Update()`, `self.renderer.ResetCamera()`,
`self.ctrl.view_update(push_camera=True)`, `self.ctrl.view_update()` and
`self.ctrl.view_reset_camera()`. -/
inductive Effect where
  | mapperUpdate
  | rendererResetCamera
  | viewUpdatePushCamera
  | viewUpdate
  | viewResetCamera
deriving DecidableEq, Repr

/-- The mutable state the callbacks of `ContourExplorer` touch: the reactive
state keys they read or write (`field`, `color_min`, `color_max`,
`preset_img`), the Python attributes `last_field`/`last_preset`, and the
parameters of the VTK objects they reconfigure.  `preset_applied` records the
argument of the last `set_preset(self.lut, ...)` call and `preset_img` the
preset rendered by `to_image(self.lut, 255)` (both helpers are imported from
`pan3d.utils.presets`, not among the sources, so they are kept symbolic). -/
structure AppState where
  field : Option String
  color_min : Val
  color_max : Val
  last_field : Option String
  last_preset : Option String
  src_t_index : Int
  src_arrays : Option (List String)
  assign_field : Option String
  mapper_color_array : Option String
  mapper_scalar_range : Val × Val
  bands_number_of_contours : Int
  bands_range : Val × Val
  preset_applied : Option String
  preset_img : Option String
  actor_scale : FloatVal × FloatVal × FloatVal
  actor_lines_scale : FloatVal × FloatVal × FloatVal
  actor_visibility : Bool
deriving DecidableEq, Repr

/-! ### State-change callbacks (contour.py lines 461-521) -/

/-- `reset_color_range` (contour.py lines 514-521): return immediately when
`state.field` is `None`; otherwise set `color_min`/`color_max` to the
minimum and maximum of the selected field's value array.  A missing key
(`KeyError`) or an empty array (numpy `min` of an empty array raises) is an
error, modelled as `none`. -/
def reset_color_range (src : SourceInput) (s : AppState) : Option AppState :=
  match s.field with
  | none => some s
  | some f =>
    match findField src f with
    | none => none
    | some fd =>
      match fd.values.min?, fd.values.max? with
      | some lo, some hi =>
        some { s with color_min := Val.num lo, color_max := Val.num hi }
      | _, _ => none

/-- `_on_update_data` (contour.py lines 482-499), registered for the state
keys `field` and `time_idx`: set `source.t_index`, `source.arrays`,
re-assign the SCALARS point attribute, select the mapper's color array,
update the mapper; then, only when `field` differs from `last_field`, update
`last_field` and reset the color range; finally request a re-render. -/
def on_update_data (src : SourceInput) (s : AppState) (field : String)
    (time_idx : Int) : Option (AppState × List Effect) :=
  let s1 := { s with
    src_t_index := time_idx
    src_arrays := some [field]
    assign_field := some field
    mapper_color_array := some field }
  let s2opt :=
    if s1.last_field = some field then some s1
    else reset_color_range src { s1 with last_field := some field }
  match s2opt with
  | none => none
  | some s2 => some (s2, [Effect.mapperUpdate, Effect.viewUpdate])

/-- `_on_update_color_range` (contour.py lines 501-512), registered for the
state keys `color_min`, `color_max`, `color_preset` and `nb_contours`:
re-apply the lookup-table preset when it changed, set the mapper's scalar
range, regenerate the contour values, and request a re-render. -/
def on_update_color_range (s : AppState) (nb_contours : Int)
    (color_min color_max : Val) (color_preset : String) :
    AppState × List Effect :=
  let s1 :=
    if s.last_preset = some color_preset then s
    else { s with
      last_preset := some color_preset
      preset_applied := some color_preset
      preset_img := some color_preset }
  let s2 := { s1 with
    mapper_scalar_range := (color_min, color_max)
    bands_number_of_contours := nb_contours
    bands_range := (color_min, color_max) }
  (s2, [Effect.viewUpdate])

/-- `_on_scale_change` (contour.py lines 461-480), registered for the state
keys `scale_x`, `scale_y` and `scale_z`: set both actors' scale to the float
conversions of the three values; when the surface actor is visible, reset
the camera and request a view refresh (plus a camera-pushing view update
when local rendering is active). -/
def on_scale_change (local_rendering : Option String) (s : AppState)
    (scale_x scale_y scale_z : Val) : AppState × List Effect :=
  let sc := (to_float scale_x, to_float scale_y, to_float scale_z)
  let s1 := { s with actor_scale := sc, actor_lines_scale := sc }
  if s1.actor_visibility then
    (s1, [Effect.rendererResetCamera] ++
      (if local_rendering.isSome then [Effect.viewUpdatePushCamera] else []) ++
      [Effect.viewResetCamera])
  else
    (s1, [])

/-! ### UI construction (`_build_ui`, contour.py lines 202-455) -/

/-- Trame widget tuple defaults `("key", value)` only take effect when the
key is not already initialized; `state.update` (contour.py lines 203-213)
runs before the widget tree is built. -/
def setdefault (cur : Option Val) (dflt : Val) : Val := cur.getD dflt

/-- The `v_if` condition of the time-slider tooltip, literally
`"slice_t_max > 0"` (contour.py line 437). -/
def time_tooltip_visible (slice_t_max : Int) : Bool :=
  decide (0 < slice_t_max)

/-- The reactive-state initialization performed by `_build_ui`: the values
of the relevant state keys after `state.update` and the widget-tuple
defaults, plus the static slider bounds and the evaluated display condition
of the time control. -/
structure UIInit where
  scale_x : Val
  scale_y : Val
  scale_z : Val
  field : String
  fields : List String
  color_min : Val
  color_max : Val
  color_preset : String
  nb_contours : Int
  time_idx : Int
  time_slider_min : Int
  slice_t_max : Int
  time_control_shown : Bool
deriving DecidableEq, Repr

/-- `_build_ui` (contour.py lines 202-455): `state.update` first sets
`scale_x = 1`, `scale_y = 1`, `scale_z = 0.01`; then
`fields[0]` (an `IndexError` when no array is available, modelled as
`none`) picks the active field and `nb_times` is the leading-dimension
length of that array; the widget tuples then set the remaining defaults
(`setdefault` semantics, so the `("scale_z", 1)` tuple does not override the
earlier `0.01`), with the time slider ranging from 0 to
`slice_t_max = nb_times - 1` and the time tooltip shown only when
`slice_t_max > 0`. -/
def build_ui (src : SourceInput) : Option UIInit :=
  match available_arrays src with
  | [] => none
  | f0 :: _ =>
    match findField src f0 with
    | none => none
    | some fd =>
      let nb_times : Int := (fd.shape0 : Int)
      some {
        scale_x := setdefault (some (Val.num 1)) (Val.num 1)
        scale_y := setdefault (some (Val.num 1)) (Val.num 1)
        scale_z := setdefault (some (Val.num (1 / 100))) (Val.num 1)
        field := f0
        fields := available_arrays src
        color_min := setdefault none (Val.num 0)
        color_max := setdefault none (Val.num 1)
        color_preset := "Cool to Warm"
        nb_contours := 20
        time_idx := 0
        time_slider_min := 0
        slice_t_max := nb_times - 1
        time_control_shown := time_tooltip_visible (nb_times - 1) }

/-! ### Reactive-state dispatch -/

/-- The three `@change`-decorated callbacks of `ContourExplorer`. -/
inductive CallbackId where
  | onScaleChange
  | onUpdateData
  | onUpdateColorRange
deriving DecidableEq, Repr

/-- The `@change` registrations of contour.py (lines 461, 482 and 501): each
callback with the list of state keys it is registered for. -/
def registrations : List (CallbackId × List String) :=
  [(.onScaleChange, ["scale_x", "scale_y", "scale_z"]),
   (.onUpdateData, ["field", "time_idx"]),
   (.onUpdateColorRange, ["color_min", "color_max", "color_preset", "nb_contours"])]

/-- The callbacks registered for a given state key. -/
def triggered (key : String) : List CallbackId :=
  (registrations.filter (fun r => r.2.contains key)).map Prod.fst

/-- Outcome of a reactive-state write: the updated store and the callback
invocations it causes, each carrying the newly written value. -/
structure WriteResult where
  store : List (String × Val)
  invocations : List (CallbackId × Val)
deriving DecidableEq, Repr

/-- Modelled from the spec: the reactive state is "a shared key-value store
where writes automatically propagate to bound UI elements and registered
callbacks" — writing a key updates the store and invokes every callback
registered for that key with the new value. -/
def write_key (st : List (String × Val)) (key : String) (v : Val) :
    WriteResult where
  store := (key, v) :: st.filter (fun p => p.1 != key)
  invocations := (triggered key).map (fun c => (c, v))

/-! ### Concrete sample data for witnesses -/

/-- A sample array: 4 time steps, values ranging from 1 to 3. -/
def sampleField : FieldData := { shape0 := 4, values := [3, 1, 2] }

/-- A sample dataset with a single array named `temperature`. -/
def sampleSrc : SourceInput := { fields := [("temperature", sampleField)] }

/-- A sample application state as set up after construction: the
`temperature` field selected and already cached in `last_field`, the actor
visible. -/
def sampleState : AppState where
  field := some "temperature"
  color_min := Val.num 1
  color_max := Val.num 3
  last_field := some "temperature"
  last_preset := some "Cool to Warm"
  src_t_index := 0
  src_arrays := some ["temperature"]
  assign_field := some "temperature"
  mapper_color_array := some "temperature"
  mapper_scalar_range := (Val.num 1, Val.num 3)
  bands_number_of_contours := 20
  bands_range := (Val.num 1, Val.num 3)
  preset_applied := some "Cool to Warm"
  preset_img := some "Cool to Warm"
  actor_scale := (to_float (Val.num 1), to_float (Val.num 1), to_float (Val.num (1 / 100)))
  actor_lines_scale := (to_float (Val.num 1), to_float (Val.num 1), to_float (Val.num (1 / 100)))
  actor_visibility := true

/-- The state after running the data-update callback on `sampleState` with
the time index moved to 2 (the other three parameters already held the
values the callback writes). -/
def sampleState2 : AppState := { sampleState with src_t_index := 2 }

/-- The sample state with no field selected. -/
def sampleStateNoField : AppState := { sampleState with field := none }

/-- The sample state before any field was cached in `last_field`. -/
def sampleStateB : AppState := { sampleState with last_field := none }

/-- The UI initialization produced by `_build_ui` on the sample dataset:
4 time steps give `slice_t_max = 3` and a visible time control. -/
def sampleUI : UIInit where
  scale_x := Val.num 1
  scale_y := Val.num 1
  scale_z := Val.num (1 / 100)
  field := "temperature"
  fields := ["temperature"]
  color_min := Val.num 0
  color_max := Val.num 1
  color_preset := "Cool to Warm"
  nb_contours := 20
  time_idx := 0
  time_slider_min := 0
  slice_t_max := 3
  time_control_shown := true

/-! ### Helper lemmas -/

/-- `reset_color_range` only ever touches `color_min` and `color_max`: every
other component of the state survives. -/
theorem reset_color_range_preserves (src : SourceInput) (s s' : AppState)
    (h : reset_color_range src s = some s') :
    s'.src_t_index = s.src_t_index ∧ s'.src_arrays = s.src_arrays ∧
    s'.assign_field = s.assign_field ∧
    s'.mapper_color_array = s.mapper_color_array ∧
    s'.last_field = s.last_field ∧ s'.field = s.field := by
  unfold reset_color_range at h
  split at h
  · cases h
    exact ⟨rfl, rfl, rfl, rfl, rfl, rfl⟩
  · split at h
    · exact Option.noConfusion h
    · split at h
      · cases h
        exact ⟨rfl, rfl, rfl, rfl, rfl, rfl⟩
      · exact Option.noConfusion h

/-! ### Theorems for the claims -/

/-- C1: for every successful construction, `_setup_vtk` wires the pipeline in
exactly this order: the data source feeds a vtkDataSetSurfaceFilter, whose
output feeds a vtkTriangleFilter, then a vtkCellDataToPointData, then a
vtkLoopSubdivisionFilter, then a vtkAssignAttribute, then a
vtkBandedPolyDataContourFilter, whose output (port 0) feeds the poly-data
mapper bound to the actor. -/
theorem c1_setup_vtk_pipeline_order (xa sg : Bool) (cfg : Option (Option String))
    (p : VtkPipeline) (h : setup_vtk xa sg cfg = .ok p) :
    p.geometry_cls = .vtkDataSetSurfaceFilter ∧ p.geometry_input = ⟨.source, 0⟩ ∧
    p.triangle_cls = .vtkTriangleFilter ∧ p.triangle_input = ⟨.geometry, 0⟩ ∧
    p.cell2point_cls = .vtkCellDataToPointData ∧ p.cell2point_input = ⟨.triangle, 0⟩ ∧
    p.refine_cls = .vtkLoopSubdivisionFilter ∧ p.refine_input = ⟨.cell2point, 0⟩ ∧
    p.assign_cls = .vtkAssignAttribute ∧ p.assign_input = ⟨.refine, 0⟩ ∧
    p.bands_cls = .vtkBandedPolyDataContourFilter ∧ p.bands_input = ⟨.assign, 0⟩ ∧
    p.mapper_cls = .vtkPolyDataMapper ∧ p.mapper_input = ⟨.bands, 0⟩ ∧
    p.actor_cls = .vtkActor ∧ p.actor_mapper = .mapper := by
  unfold setup_vtk at h
  by_cases hx : xa = true
  · simp [hx] at h
  · by_cases hs : sg = true
    · simp [hx, hs] at h
    · simp [hx, hs] at h
      cases cfg with
      | none => simp at h
      | some field =>
        simp at h
        subst h
        exact ⟨rfl, rfl, rfl, rfl, rfl, rfl, rfl, rfl, rfl, rfl, rfl, rfl,
          rfl, rfl, rfl, rfl⟩

/-- Witness for C1: a concrete successful construction (import-state path,
`color_by = "temperature"`) satisfying the wiring chain. -/
theorem c1_setup_vtk_pipeline_order_witness :
    (build_pipeline (some "temperature")).geometry_cls = .vtkDataSetSurfaceFilter ∧
    (build_pipeline (some "temperature")).geometry_input = ⟨.source, 0⟩ ∧
    (build_pipeline (some "temperature")).triangle_cls = .vtkTriangleFilter ∧
    (build_pipeline (some "temperature")).triangle_input = ⟨.geometry, 0⟩ ∧
    (build_pipeline (some "temperature")).cell2point_cls = .vtkCellDataToPointData ∧
    (build_pipeline (some "temperature")).cell2point_input = ⟨.triangle, 0⟩ ∧
    (build_pipeline (some "temperature")).refine_cls = .vtkLoopSubdivisionFilter ∧
    (build_pipeline (some "temperature")).refine_input = ⟨.cell2point, 0⟩ ∧
    (build_pipeline (some "temperature")).assign_cls = .vtkAssignAttribute ∧
    (build_pipeline (some "temperature")).assign_input = ⟨.refine, 0⟩ ∧
    (build_pipeline (some "temperature")).bands_cls = .vtkBandedPolyDataContourFilter ∧
    (build_pipeline (some "temperature")).bands_input = ⟨.assign, 0⟩ ∧
    (build_pipeline (some "temperature")).mapper_cls = .vtkPolyDataMapper ∧
    (build_pipeline (some "temperature")).mapper_input = ⟨.bands, 0⟩ ∧
    (build_pipeline (some "temperature")).actor_cls = .vtkActor ∧
    (build_pipeline (some "temperature")).actor_mapper = .mapper :=
  c1_setup_vtk_pipeline_order false false (some (some "temperature"))
    (build_pipeline (some "temperature")) rfl

/-- C2: for every change of the state keys `field` or `time_idx`,
`_on_update_data` sets the source's `t_index` to `time_idx`, sets the
source's selected arrays to the single-element list `[field]`, re-assigns
`field` as the SCALARS point attribute on the attribute-assignment filter,
selects `field` as the mapper's color array, and then (last in the effect
trace) requests a re-render via `ctrl.view_update`. -/
theorem c2_on_update_data (src : SourceInput) (s : AppState) (field : String)
    (t : Int) (s' : AppState) (tr : List Effect)
    (h : on_update_data src s field t = some (s', tr)) :
    s'.src_t_index = t ∧ s'.src_arrays = some [field] ∧
    s'.assign_field = some field ∧ s'.mapper_color_array = some field ∧
    tr.getLast? = some Effect.viewUpdate := by
  unfold on_update_data at h
  dsimp only at h
  split at h
  · exact Option.noConfusion h
  · rename_i s2 heq
    simp only [Option.some.injEq, Prod.mk.injEq] at h
    obtain ⟨hs, htr⟩ := h
    subst hs
    subst htr
    split at heq
    · cases heq
      exact ⟨rfl, rfl, rfl, rfl, rfl⟩
    · obtain ⟨h1, h2, h3, h4, _, _⟩ := reset_color_range_preserves _ _ _ heq
      exact ⟨h1.trans rfl, h2.trans rfl, h3.trans rfl, h4.trans rfl, rfl⟩

/-- Witness for C2: running the data-update callback on the sample state at
time index 2 succeeds and yields the claimed configuration. -/
theorem c2_on_update_data_witness :
    sampleState2.src_t_index = 2 ∧
    sampleState2.src_arrays = some ["temperature"] ∧
    sampleState2.assign_field = some "temperature" ∧
    sampleState2.mapper_color_array = some "temperature" ∧
    ([Effect.mapperUpdate, Effect.viewUpdate]).getLast? = some Effect.viewUpdate :=
  c2_on_update_data sampleSrc sampleState "temperature" 2 sampleState2
    [Effect.mapperUpdate, Effect.viewUpdate] rfl

/-- C3: for every change of the state keys `color_min`, `color_max`,
`color_preset` or `nb_contours`, `_on_update_color_range` sets the mapper's
scalar range to `[color_min, color_max]`, instructs the banded-contour
filter to generate `nb_contours` contour values over
`[color_min, color_max]`, and then (last in the effect trace) requests a
re-render via `ctrl.view_update`. -/
theorem c3_on_update_color_range (s : AppState) (nb : Int) (lo hi : Val)
    (preset : String) :
    (on_update_color_range s nb lo hi preset).1.mapper_scalar_range = (lo, hi) ∧
    (on_update_color_range s nb lo hi preset).1.bands_number_of_contours = nb ∧
    (on_update_color_range s nb lo hi preset).1.bands_range = (lo, hi) ∧
    (on_update_color_range s nb lo hi preset).2.getLast? = some Effect.viewUpdate :=
  ⟨rfl, rfl, rfl, rfl⟩

/-- C4: for every change of the state keys `scale_x`, `scale_y` or
`scale_z`, `_on_scale_change` sets both the surface actor's and the
contour-lines actor's per-axis scale to the float conversions of the three
values, and — with the surface actor visible, as `_setup_vtk` leaves it —
a render refresh is requested (`ctrl.view_reset_camera` appears in the
effect trace, plus a camera-pushing `ctrl.view_update` when local rendering
is active). -/
theorem c4_on_scale_change (lr : Option String) (s : AppState)
    (sx sy sz : Val) (h : s.actor_visibility = true) :
    (on_scale_change lr s sx sy sz).1.actor_scale =
      (to_float sx, to_float sy, to_float sz) ∧
    (on_scale_change lr s sx sy sz).1.actor_lines_scale =
      (to_float sx, to_float sy, to_float sz) ∧
    Effect.viewResetCamera ∈ (on_scale_change lr s sx sy sz).2 := by
  unfold on_scale_change
  rw [if_pos h]
  refine ⟨rfl, rfl, ?_⟩
  cases lr <;> simp

/-- Witness for C4: rescaling the sample state (whose actor is visible)
to (2, 3, 1/2) sets both actors' scale and requests a refresh. -/
theorem c4_on_scale_change_witness :
    (on_scale_change none sampleState (Val.num 2) (Val.num 3)
        (Val.num (1 / 2))).1.actor_scale =
      (to_float (Val.num 2), to_float (Val.num 3), to_float (Val.num (1 / 2))) ∧
    (on_scale_change none sampleState (Val.num 2) (Val.num 3)
        (Val.num (1 / 2))).1.actor_lines_scale =
      (to_float (Val.num 2), to_float (Val.num 3), to_float (Val.num (1 / 2))) ∧
    Effect.viewResetCamera ∈
      (on_scale_change none sampleState (Val.num 2) (Val.num 3)
        (Val.num (1 / 2))).2 :=
  c4_on_scale_change none sampleState (Val.num 2) (Val.num 3)
    (Val.num (1 / 2)) rfl

/-- C7: the local rendering mode is the constructor argument unless
overridden by command-line flags: `--wasm` sets it to `"wasm"`, `--vtkjs`
sets it to `"vtkjs"`, and `--vtkjs` takes precedence over `--wasm` when both
flags are given. -/
theorem c7_local_rendering_flags (lr : Option String) :
    resolve_local_rendering lr false false = lr ∧
    resolve_local_rendering lr true false = some "wasm" ∧
    resolve_local_rendering lr false true = some "vtkjs" ∧
    resolve_local_rendering lr true true = some "vtkjs" :=
  ⟨rfl, rfl, rfl, rfl⟩

/-- C5: at UI construction time, `slice_t_max` is initialized to the length
of the leading dimension of the first available array minus one, the time
index defaults to 0 with the slider ranging from 0 to `slice_t_max`, and the
time control is displayed only when `slice_t_max > 0`. -/
theorem c5_build_ui_time_slider (src : SourceInput) (ui : UIInit)
    (f0 : String) (fd : FieldData) (h : build_ui src = some ui)
    (hf : (available_arrays src).head? = some f0)
    (hfd : findField src f0 = some fd) :
    ui.slice_t_max = (fd.shape0 : Int) - 1 ∧ ui.time_idx = 0 ∧
    ui.time_slider_min = 0 ∧
    (ui.time_control_shown = true ↔ 0 < ui.slice_t_max) := by
  unfold build_ui at h
  split at h
  · exact Option.noConfusion h
  · rename_i f0h rest heq
    rw [heq] at hf
    simp only [List.head?_cons, Option.some.injEq] at hf
    subst hf
    rw [hfd] at h
    dsimp only at h
    injection h with h
    subst h
    refine ⟨rfl, rfl, rfl, ?_⟩
    simp [time_tooltip_visible]

/-- Witness for C5: on the sample dataset (4 time steps) the slider maximum
is 3 and the time control is shown. -/
theorem c5_build_ui_time_slider_witness :
    sampleUI.slice_t_max = (sampleField.shape0 : Int) - 1 ∧
    sampleUI.time_idx = 0 ∧ sampleUI.time_slider_min = 0 ∧
    (sampleUI.time_control_shown = true ↔ 0 < sampleUI.slice_t_max) :=
  c5_build_ui_time_slider sampleSrc sampleUI "temperature" sampleField
    rfl rfl rfl

/-- C6: writing any reactive-state key appearing in a `@change` registration
invokes exactly the registered callback for that key, with the new value. -/
theorem c6_write_key_dispatch (st : List (String × Val)) (v : Val) :
    (write_key st "scale_x" v).invocations = [(CallbackId.onScaleChange, v)] ∧
    (write_key st "scale_y" v).invocations = [(CallbackId.onScaleChange, v)] ∧
    (write_key st "scale_z" v).invocations = [(CallbackId.onScaleChange, v)] ∧
    (write_key st "field" v).invocations = [(CallbackId.onUpdateData, v)] ∧
    (write_key st "time_idx" v).invocations = [(CallbackId.onUpdateData, v)] ∧
    (write_key st "color_min" v).invocations = [(CallbackId.onUpdateColorRange, v)] ∧
    (write_key st "color_max" v).invocations = [(CallbackId.onUpdateColorRange, v)] ∧
    (write_key st "color_preset" v).invocations = [(CallbackId.onUpdateColorRange, v)] ∧
    (write_key st "nb_contours" v).invocations = [(CallbackId.onUpdateColorRange, v)] :=
  ⟨rfl, rfl, rfl, rfl, rfl, rfl, rfl, rfl, rfl⟩

/-- C8: `reset_color_range` is a guarded no-op: when `state.field` is `None`
it returns immediately leaving the state (in particular `color_min` and
`color_max`) unchanged; otherwise it sets `color_min` to the minimum and
`color_max` to the maximum of the selected field's value array. -/
theorem c8_reset_color_range_guard (src : SourceInput) (s : AppState) :
    (s.field = none → reset_color_range src s = some s) ∧
    (∀ f fd lo hi, s.field = some f → findField src f = some fd →
      fd.values.min? = some lo → fd.values.max? = some hi →
      reset_color_range src s =
        some { s with color_min := Val.num lo, color_max := Val.num hi }) := by
  constructor
  · intro h
    unfold reset_color_range
    rw [h]
  · intro f fd lo hi hf hfd hlo hhi
    unfold reset_color_range
    rw [hf]
    dsimp only
    rw [hfd]
    dsimp only
    rw [hlo, hhi]

/-- Witness for C8: the guard branch on a state with no field, and the range
reset on the sample state (values `[3, 1, 2]` give range `[1, 3]`). -/
theorem c8_reset_color_range_guard_witness :
    reset_color_range sampleSrc sampleStateNoField = some sampleStateNoField ∧
    reset_color_range sampleSrc sampleState =
      some { sampleState with color_min := Val.num 1, color_max := Val.num 3 } :=
  ⟨(c8_reset_color_range_guard sampleSrc sampleStateNoField).1 rfl,
   (c8_reset_color_range_guard sampleSrc sampleState).2 "temperature"
     sampleField 1 3 rfl rfl (by decide) (by decide)⟩

/-- C9: when the incoming `field` equals the cached `last_field`,
`_on_update_data` leaves `color_min`, `color_max` and `last_field`
unchanged; only when it differs are `color_min`/`color_max` reset to the new
field's data range and `last_field` updated to the new field. -/
theorem c9_on_update_data_range_reset (src : SourceInput) (s : AppState)
    (field : String) (t : Int) (s' : AppState) (tr : List Effect)
    (h : on_update_data src s field t = some (s', tr)) :
    (s.last_field = some field →
      s'.color_min = s.color_min ∧ s'.color_max = s.color_max ∧
      s'.last_field = s.last_field) ∧
    (s.last_field ≠ some field → s.field = some field →
      ∀ fd lo hi, findField src field = some fd →
        fd.values.min? = some lo → fd.values.max? = some hi →
        s'.color_min = Val.num lo ∧ s'.color_max = Val.num hi ∧
        s'.last_field = some field) := by
  unfold on_update_data at h
  dsimp only at h
  split at h
  · exact Option.noConfusion h
  · rename_i s2 heq
    simp only [Option.some.injEq, Prod.mk.injEq] at h
    obtain ⟨hs, htr⟩ := h
    subst hs
    subst htr
    split at heq
    · rename_i hcond
      cases heq
      constructor
      · intro _
        exact ⟨rfl, rfl, rfl⟩
      · intro hne _
        exact absurd hcond hne
    · rename_i hcond
      constructor
      · intro hlf
        exact absurd hlf hcond
      · intro _ hsf fd lo hi hfd hlo hhi
        unfold reset_color_range at heq
        dsimp only at heq
        rw [hsf] at heq
        dsimp only at heq
        rw [hfd] at heq
        dsimp only at heq
        rw [hlo, hhi] at heq
        cases heq
        exact ⟨rfl, rfl, rfl⟩

/-- Witness for C9: the unchanged branch on the sample state where the field
is already cached, and the reset branch on the state whose `last_field` is
still `None`. -/
theorem c9_on_update_data_range_reset_witness :
    (sampleState2.color_min = sampleState.color_min ∧
     sampleState2.color_max = sampleState.color_max ∧
     sampleState2.last_field = sampleState.last_field) ∧
    (sampleState.color_min = Val.num 1 ∧ sampleState.color_max = Val.num 3 ∧
     sampleState.last_field = some "temperature") :=
  ⟨(c9_on_update_data_range_reset sampleSrc sampleState "temperature" 2
      sampleState2 [Effect.mapperUpdate, Effect.viewUpdate] rfl).1 rfl,
   (c9_on_update_data_range_reset sampleSrc sampleStateB "temperature" 0
      sampleState [Effect.mapperUpdate, Effect.viewUpdate] rfl).2
      (by simp [sampleStateB, sampleState]) rfl sampleField 1 3 rfl rfl rfl⟩

/-- C10: after `_build_ui` initializes the shared state, the per-axis scale
defaults are asymmetric: `scale_x = 1` and `scale_y = 1` while
`scale_z = 0.01`. -/
theorem c10_build_ui_scale_defaults (src : SourceInput) (ui : UIInit)
    (h : build_ui src = some ui) :
    ui.scale_x = Val.num 1 ∧ ui.scale_y = Val.num 1 ∧
    ui.scale_z = Val.num (1 / 100) := by
  unfold build_ui at h
  split at h
  · exact Option.noConfusion h
  · split at h
    · exact Option.noConfusion h
    · dsimp only at h
      injection h with h
      subst h
      exact ⟨rfl, rfl, rfl⟩

/-- Witness for C10: the sample dataset yields scale defaults
(1, 1, 1/100). -/
theorem c10_build_ui_scale_defaults_witness :
    sampleUI.scale_x = Val.num 1 ∧ sampleUI.scale_y = Val.num 1 ∧
    sampleUI.scale_z = Val.num (1 / 100) :=
  c10_build_ui_scale_defaults sampleSrc sampleUI rfl

end Pan3D
